import Mathlib

/-!
Verification development for the DisasterEye client.

The repository is a browser application: a localStorage-backed mock
persistence layer (`api`), a generative-AI gateway module
(`analyzeDisasterImage`, `generateEmergencyPlanText`, `chatWithAssistant`,
`fetchRealTimeNews`), and a chat command dispatcher (`handleSend`) that
turns gateway tool calls into UI side effects.

Modelling conventions:
- `localStorage` is a record of five optional collections (`Store`);
  `JSON.stringify`/`JSON.parse` with the date reviver round-trip is
  modelled as the identity, with `Date` values as epoch milliseconds (`Nat`).
- TypeScript `number` fields that can be fractional are modelled as `Rat`.
- Nondeterministic externals (`crypto.randomUUID`, `Date.now`, network
  calls, `new URL(...).hostname`) are explicit parameters or oracle
  arguments; a `Nat` component counts attempted network calls.
- Side effects (DOM events, navigation, message list updates, speech) are
  recorded as explicit effect lists in program order.
-/

/-- `DisasterType` enum from types.ts. -/
inductive DisasterType where
  | FLOOD
  | FIRE
  | EARTHQUAKE
  | LANDSLIDE
  | STORM
  | NONE
deriving DecidableEq, Repr

/-- `RiskLevel` enum from types.ts. -/
inductive RiskLevel where
  | LOW
  | MODERATE
  | HIGH
  | CRITICAL
deriving DecidableEq, Repr

/-- `Coordinates` from types.ts (`lat`/`lng` are JS numbers). -/
structure Coordinates where
  lat : Rat
  lng : Rat
deriving DecidableEq, Repr

/-- `UserReport` from types.ts. -/
structure UserReport where
  id : String
  type : DisasterType
  description : String
  timestamp : Nat
  coordinates : Coordinates
  verified : Bool
deriving DecidableEq, Repr

/-- `EmergencyResource` from types.ts (the literal unions kept as strings). -/
structure EmergencyResource where
  id : String
  name : String
  type : String
  location : Coordinates
  status : String
deriving DecidableEq, Repr

/-- `Alert` from types.ts. -/
structure Alert where
  id : String
  message : String
  level : RiskLevel
  timestamp : Nat
deriving DecidableEq, Repr

/-- `NewsItem` from types.ts (`imageUrl` and `url` are optional). -/
structure NewsItem where
  id : String
  title : String
  summary : String
  source : String
  timestamp : Nat
  imageUrl : Option String
  url : Option String
deriving DecidableEq, Repr

/-- `Contact` from types.ts. -/
structure Contact where
  id : String
  name : String
  relation : String
  phone : String
  email : String
deriving DecidableEq, Repr

/-- `MOCK_RESOURCES` from constants.ts. -/
def MOCK_RESOURCES : List EmergencyResource :=
  [ { id := "1", name := "Central City Hospital", type := "HOSPITAL",
      location := { lat := 34.0522, lng := -118.2437 }, status := "AVAILABLE" },
    { id := "2", name := "Westside Shelter (HS Gym)", type := "SHELTER",
      location := { lat := 34.0622, lng := -118.2537 }, status := "AVAILABLE" },
    { id := "3", name := "Downtown Police Precinct", type := "POLICE",
      location := { lat := 34.0422, lng := -118.2337 }, status := "AVAILABLE" } ]

/-- `MOCK_REPORTS` from constants.ts; `now` is the module-load clock
(`new Date()` / `Date.now()` at evaluation of the constant). -/
def MOCK_REPORTS (now : Nat) : List UserReport :=
  [ { id := "r1", type := DisasterType.FLOOD,
      description := "Water rising rapidly near the river bank.",
      timestamp := now, coordinates := { lat := 34.055, lng := -118.245 },
      verified := true },
    { id := "r2", type := DisasterType.FIRE,
      description := "Smoke spotted on the northern ridge.",
      timestamp := now - 3600000, coordinates := { lat := 34.075, lng := -118.265 },
      verified := false } ]

/-- `MOCK_ALERTS` from constants.ts. -/
def MOCK_ALERTS (now : Nat) : List Alert :=
  [ { id := "a1",
      message := "FLASH FLOOD WARNING: Sector 4 levee integrity compromised. Evacuate to high ground immediately.",
      level := RiskLevel.CRITICAL, timestamp := now },
    { id := "a2",
      message := "Wildfire containment dropped to 40%. Smoke advisory in effect for downtown.",
      level := RiskLevel.HIGH, timestamp := now - 1000 * 60 * 30 } ]

/-- `MOCK_NEWS` from constants.ts (the third item has no `url` field). -/
def MOCK_NEWS (now : Nat) : List NewsItem :=
  [ { id := "n1", title := "Global Climate Summit Addresses Rising Sea Levels",
      summary := "World leaders gather to discuss emergency protocols for coastal cities facing immediate flood risks.",
      source := "Global News Network", timestamp := now - 1000 * 60 * 60 * 2,
      imageUrl := some "https://images.unsplash.com/photo-1550989460-0adf9ea622e2?q=80&w=600&auto=format&fit=crop",
      url := some "#" },
    { id := "n2", title := "Tech Giants Unveil New Seismic Sensors",
      summary := "A new array of AI-powered sensors promises to increase earthquake warning times by up to 30 seconds.",
      source := "Tech Daily", timestamp := now - 1000 * 60 * 60 * 5,
      imageUrl := some "https://images.unsplash.com/photo-1451187580459-43490279c0fa?q=80&w=600&auto=format&fit=crop",
      url := some "#" },
    { id := "n3", title := "Hurricane Season 2025 Predictions Released",
      summary := "Meteorologists predict a higher-than-average number of named storms this year due to ocean warming.",
      source := "Weather Watch", timestamp := now - 1000 * 60 * 60 * 12,
      imageUrl := some "https://images.unsplash.com/photo-1569060368523-c9e54d6d67cf?q=80&w=600&auto=format&fit=crop",
      url := none } ]

/-- `MOCK_CONTACTS` from constants.ts. -/
def MOCK_CONTACTS : List Contact :=
  [ { id := "c1", name := "Sarah Connor", relation := "Mother",
      phone := "+1 (555) 019-2834", email := "sarah@example.com" },
    { id := "c2", name := "Kyle Reese", relation := "Partner",
      phone := "+1 (555) 123-4567", email := "kyle@example.com" } ]

/-- The five localStorage slots of services/db.ts (`KEYS`); `none` models an
absent key, `some l` a stored JSON array (serialization modelled as identity). -/
structure Store where
  reports : Option (List UserReport)
  resources : Option (List EmergencyResource)
  alerts : Option (List Alert)
  news : Option (List NewsItem)
  contacts : Option (List Contact)
deriving DecidableEq, Repr

/-- Browser storage before any key has ever been written. -/
def emptyStore : Store :=
  { reports := none, resources := none, alerts := none, news := none, contacts := none }

/-- Broadcast events the store layer dispatches on `window`
(`db-reports-updated`). -/
inductive StoreEffect where
  | reportsChanged
deriving DecidableEq, Repr

/-- Input of `api.createReport`: `Omit` of `id`, `timestamp`, `verified`. -/
structure ReportInput where
  type : DisasterType
  description : String
  coordinates : Coordinates
deriving DecidableEq, Repr

namespace api

/-- `api.init`: seed each absent collection from its static fixture.
`now` is the module-load clock the fixture constants were built with. -/
def init (now : Nat) (s : Store) : Store :=
  let s := if s.reports = none then { s with reports := some (MOCK_REPORTS now) } else s
  let s := if s.resources = none then { s with resources := some MOCK_RESOURCES } else s
  let s := if s.alerts = none then { s with alerts := some (MOCK_ALERTS now) } else s
  let s := if s.news = none then { s with news := some (MOCK_NEWS now) } else s
  if s.contacts = none then { s with contacts := some MOCK_CONTACTS } else s

/-- `api.getReports`: run `init`, then read and parse the reports slot
(raw absent parses to `[]`). Returns the storage state after seeding. -/
def getReports (now : Nat) (s : Store) : Store × List UserReport :=
  let s := init now s
  (s, s.reports.getD [])

/-- `api.getResources`. -/
def getResources (now : Nat) (s : Store) : Store × List EmergencyResource :=
  let s := init now s
  (s, s.resources.getD [])

/-- `api.getAlerts`. -/
def getAlerts (now : Nat) (s : Store) : Store × List Alert :=
  let s := init now s
  (s, s.alerts.getD [])

/-- `api.getNews`. -/
def getNews (now : Nat) (s : Store) : Store × List NewsItem :=
  let s := init now s
  (s, s.news.getD [])

/-- `api.getContacts`. -/
def getContacts (now : Nat) (s : Store) : Store × List Contact :=
  let s := init now s
  (s, s.contacts.getD [])

/-- `api.createReport`: read the current reports, push a new record with a
generated id (`crypto.randomUUID()`, passed as `newId`), the current time
(`new Date()`, passed as `tNow`) and `verified := false`, persist the whole
collection, and dispatch `db-reports-updated` once. -/
def createReport (now tNow : Nat) (s : Store) (input : ReportInput) (newId : String) :
    Store × List StoreEffect × UserReport :=
  let sr := getReports now s
  let newReport : UserReport :=
    { id := newId, type := input.type, description := input.description,
      timestamp := tNow, coordinates := input.coordinates, verified := false }
  let updated := sr.2 ++ [newReport]
  ({ sr.1 with reports := some updated }, [StoreEffect.reportsChanged], newReport)

/-- `api.verifyReport`: map over the reports, setting `verified := true` on
records whose id matches, persist, and dispatch `db-reports-updated`. -/
def verifyReport (now : Nat) (s : Store) (reportId : String) :
    Store × List StoreEffect :=
  let sr := getReports now s
  let updatedReports := sr.2.map fun r =>
    if r.id = reportId then { r with verified := true } else r
  ({ sr.1 with reports := some updatedReports }, [StoreEffect.reportsChanged])

/-- `api.addContact`: push a record with a generated id and persist. -/
def addContact (now : Nat) (s : Store) (name relation phone email : String)
    (newId : String) : Store × Contact :=
  let sc := getContacts now s
  let newContact : Contact :=
    { id := newId, name := name, relation := relation, phone := phone, email := email }
  ({ sc.1 with contacts := some (sc.2 ++ [newContact]) }, newContact)

/-- `api.deleteContact`: keep every contact whose id differs and persist. -/
def deleteContact (now : Nat) (s : Store) (id : String) : Store :=
  let sc := getContacts now s
  let filtered := sc.2.filter fun c => c.id ≠ id
  { sc.1 with contacts := some filtered }

end api

/-- `PredictionResult.estimatedImpact` from types.ts. -/
structure EstimatedImpact where
  radiusKm : Rat
  peopleAffected : Rat
  infrastructureDamage : String
deriving DecidableEq, Repr

/-- `PredictionResult` from types.ts. -/
structure PredictionResult where
  disasterType : DisasterType
  confidence : Rat
  riskLevel : RiskLevel
  summary : String
  immediateActions : List String
  estimatedImpact : EstimatedImpact
deriving DecidableEq, Repr

/-- The untyped `args` object of a gateway function call; every field the
dispatcher reads is optional, as in the dynamic JS payload. -/
structure FnArgs where
  action : Option String
  route : Option String
  alertActive : Option Bool
  simulationCommand : Option String
  intensityValue : Option Rat
  mapCommand : Option String
  type : Option DisasterType
  description : Option String
deriving DecidableEq, Repr

/-- One `functionCall` entry of a gateway result. -/
structure FnCall where
  name : String
  args : FnArgs
deriving DecidableEq, Repr

/-- `groundingChunks[i].web` of a grounded response. -/
structure GroundingWeb where
  uri : Option String
  title : Option String
deriving DecidableEq, Repr

/-- One grounding chunk of a grounded response. -/
structure GroundingChunk where
  web : Option GroundingWeb
deriving DecidableEq, Repr

/-- The fields of a successful `chat.sendMessage` result that
`chatWithAssistant` reads. -/
structure ChatOutcome where
  text : Option String
  functionCalls : Option (List FnCall)
  groundingMetadata : Option (List GroundingChunk)
deriving DecidableEq, Repr

/-- `ChatResponse` from services/geminiService.ts. -/
structure ChatResponse where
  text : String
  functionCall : Option FnCall
  groundingMetadata : Option (List GroundingChunk)
deriving DecidableEq, Repr

/-- Helper for `jsTrim`: drop leading whitespace characters. -/
def dropLeadingWs : List Char → List Char
  | [] => []
  | c :: cs => if c.isWhitespace then dropLeadingWs cs else c :: cs

/-- JS `String.prototype.trim`: remove whitespace from both ends. -/
def jsTrim (s : String) : String :=
  String.mk ((dropLeadingWs ((dropLeadingWs s.data).reverse)).reverse)

/-- Helper for `replaceFirst`, over character lists. -/
def replaceFirstAux (pat rep : List Char) : List Char → List Char
  | [] => []
  | c :: cs =>
    if pat.isPrefixOf (c :: cs) then rep ++ (c :: cs).drop pat.length
    else c :: replaceFirstAux pat rep cs

/-- JS `String.prototype.replace` with a string pattern: replace only the
first occurrence. -/
def replaceFirst (s pat rep : String) : String :=
  String.mk (replaceFirstAux pat.data rep.data s.data)

/-- JS template interpolation of a possibly-undefined string. -/
def optStr (o : Option String) : String := o.getD "undefined"

/-- String value of a `DisasterType` enum member. -/
def DisasterType.str : DisasterType → String
  | .FLOOD => "FLOOD"
  | .FIRE => "FIRE"
  | .EARTHQUAKE => "EARTHQUAKE"
  | .LANDSLIDE => "LANDSLIDE"
  | .STORM => "STORM"
  | .NONE => "NONE"

/-- JS template interpolation of a possibly-undefined `DisasterType`. -/
def optDisasterStr (o : Option DisasterType) : String :=
  match o with
  | some d => d.str
  | none => "undefined"

/-- `analyzeDisasterImage`: with no API key return `null` without calling the
network; otherwise the try-block (network call plus JSON decode of
`response.text`) is the oracle `attempt`, and any thrown error is caught and
converted to `null`. The `Nat` counts attempted network calls. -/
def analyzeDisasterImage (apiKey : Option String)
    (attempt : Except String (Option PredictionResult)) :
    Option PredictionResult × Nat :=
  match apiKey with
  | none => (none, 0)
  | some _ =>
    match attempt with
    | .error _ => (none, 1)
    | .ok r => (r, 1)

/-- `generateEmergencyPlanText`: with no API key return the fixed unavailable
string without calling the network; otherwise `response.text ||
"Could not generate plan."` on success, `"Error generating plan."` on a
caught exception. -/
def generateEmergencyPlanText (apiKey : Option String)
    (attempt : Except String (Option String)) : String × Nat :=
  match apiKey with
  | none => ("AI Service Unavailable", 0)
  | some _ =>
    match attempt with
    | .error _ => ("Error generating plan.", 1)
    | .ok t =>
      (match t with
       | some txt => if txt = "" then "Could not generate plan." else txt
       | none => "Could not generate plan.", 1)

/-- `chatWithAssistant`: with no API key return `{ text: "System offline." }`
without calling the network; otherwise take the first function call of the
result if any, and `"Communication error."` on a caught exception. -/
def chatWithAssistant (apiKey : Option String)
    (attempt : Except String ChatOutcome) : ChatResponse × Nat :=
  match apiKey with
  | none => ({ text := "System offline.", functionCall := none, groundingMetadata := none }, 0)
  | some _ =>
    match attempt with
    | .error _ =>
      ({ text := "Communication error.", functionCall := none, groundingMetadata := none }, 1)
    | .ok r =>
      ({ text := r.text.getD "",
         functionCall :=
           match r.functionCalls with
           | some (c :: _) => some c
           | _ => none,
         groundingMetadata := r.groundingMetadata }, 1)

/-- JS truthiness of an optional string (`undefined` and `""` are falsy). -/
def optTruthy (o : Option String) : Bool :=
  match o with
  | some s => s ≠ ""
  | none => false

/-- The chunk-to-item mapping of `fetchRealTimeNews`: keep chunks with truthy
`web.uri` and `web.title`, and build a `NewsItem` per chunk; `hostname`
models `u => new URL(u).hostname`, `now` models `Date.now()`/`new Date()`. -/
def chunksToNewsItems (hostname : String → String) (now : Nat)
    (chunks : List GroundingChunk) : List NewsItem :=
  ((chunks.filter fun c =>
      match c.web with
      | some w => optTruthy w.uri && optTruthy w.title
      | none => false).enum.map fun p =>
    let w := (p.2.web.getD { uri := none, title := none })
    { id := "live-" ++ toString p.1 ++ "-" ++ toString now,
      title := w.title.getD "",
      summary := "Live report retrieved from global monitoring network.",
      source := replaceFirst (hostname (w.uri.getD "")) "www." "",
      timestamp := now,
      imageUrl := none,
      url := w.uri })

/-- The deduplication step of `fetchRealTimeNews`:
`items.filter((item, index, self) => index === self.findIndex(t => t.url === item.url))`. -/
def dedupByUrl (items : List NewsItem) : List NewsItem :=
  (items.enum.filter fun p =>
    items.findIdx (fun t => t.url == p.2.url) == p.1).map Prod.snd

/-- `fetchRealTimeNews`: with no API key return `[]` without calling the
network; otherwise read the grounding chunks (`none` models an absent
`groundingChunks`), map them to news items, deduplicate by `url`, and keep
at most ten; a caught exception yields `[]`. -/
def fetchRealTimeNews (apiKey : Option String) (hostname : String → String)
    (now : Nat) (attempt : Except String (Option (List GroundingChunk))) :
    List NewsItem × Nat :=
  match apiKey with
  | none => ([], 0)
  | some _ =>
    match attempt with
    | .error _ => ([], 1)
    | .ok none => ([], 1)
    | .ok (some chunks) =>
      ((dedupByUrl (chunksToNewsItems hostname now chunks)).take 10, 1)

/-- UI side effects of the chat dispatcher, in program order:
message-list appends, speech, the guided-navigation flash, router
navigation, awaited settle delays, the `aiden-sim` / `aiden-map` /
`aiden-report-ui` custom events, the alert-mode flag, the pending location
request, the store write of `reportIncident`, and the delayed navigation
scheduled by `setTimeout`. -/
inductive Effect where
  | addAiMessage (text : String)
  | speakText (text : String)
  | triggerGuiding
  | navigate (route : String)
  | wait (ms : Nat)
  | simCommandEvent (command : Option String) (intensity : Option Rat)
  | mapCommandEvent (command : Option String)
  | reportUiEvent
  | alertMode (active : Bool)
  | locationRequested
  | storeCreateReport (ty : Option DisasterType) (description : Option String)
      (coords : Coordinates)
  | delayedNavigate (ms : Nat) (route : String)
deriving DecidableEq, Repr

/-- The `validRoutes` allow-list of the NAVIGATE branch of `handleSend`. -/
def validRoutes : List String :=
  ["/", "/map", "/prediction", "/simulation", "/emergency-plan", "/ar-view",
   "/settings", "/contacts"]

/-- The synthesized acknowledgement of the NAVIGATE branch:
`Routing to ${targetRoute.replace('/', '') || 'Dashboard'}.` -/
def navigateAckMessage (targetRoute : String) : String :=
  "Routing to " ++
    (if replaceFirst targetRoute "/" "" = "" then "Dashboard"
     else replaceFirst targetRoute "/" "") ++ "."

/-- Branch 1 of the `controlApp` handler (`NAVIGATE`): given the current
feedback text, return the effects of the branch and the updated feedback. -/
def navStep (fb : String) (args : FnArgs) : List Effect × String :=
  if args.action = some "NAVIGATE" then
    match args.route with
    | some r =>
      if r = "" then ([], fb)
      else
        let targetRoute := jsTrim r
        if targetRoute ∈ validRoutes then
          ([Effect.triggerGuiding, Effect.navigate targetRoute],
           if fb = "" then navigateAckMessage targetRoute else fb)
        else ([], fb)
    | none => ([], fb)
  else ([], fb)

/-- Branch 2 of the `controlApp` handler (`SET_ALERT_MODE`). -/
def alertStep (fb : String) (args : FnArgs) : List Effect × String :=
  if args.action = some "SET_ALERT_MODE" then
    let isActive : Bool := args.alertActive == some true
    ([Effect.alertMode isActive],
     if fb = "" then
       (if isActive then "Red Alert activated." else "Alerts cancelled.")
     else fb)
  else ([], fb)

/-- Branch 3 of the `controlApp` handler (`SIMULATION_CONTROL`): on `START`
while not already on `#/simulation`, navigate there and await a 500 ms
settle delay, then dispatch the `aiden-sim` event. -/
def simStep (fb : String) (args : FnArgs) (hash : String) : List Effect × String :=
  if args.action = some "SIMULATION_CONTROL" then
    let navPart : List Effect :=
      if args.simulationCommand = some "START" ∧ hash ≠ "#/simulation" then
        [Effect.navigate "/simulation", Effect.wait 500]
      else []
    (navPart ++ [Effect.simCommandEvent args.simulationCommand args.intensityValue],
     if fb = "" then
       "Simulation protocol " ++ optStr args.simulationCommand ++ " executed."
     else fb)
  else ([], fb)

/-- Branch 4 of the `controlApp` handler (`MAP_CONTROL`). -/
def mapStep (fb : String) (args : FnArgs) (hash : String) : List Effect × String :=
  if args.action = some "MAP_CONTROL" then
    let navPart : List Effect :=
      if hash ≠ "#/map" then [Effect.navigate "/map", Effect.wait 500] else []
    (navPart ++ [Effect.mapCommandEvent args.mapCommand],
     if fb = "" then "Map view updating: " ++ optStr args.mapCommand ++ "." else fb)
  else ([], fb)

/-- Branch 5 of the `controlApp` handler (`OPEN_REPORT`). -/
def reportStep (fb : String) (args : FnArgs) (hash : String) : List Effect × String :=
  if args.action = some "OPEN_REPORT" then
    let navPart : List Effect :=
      if hash ≠ "#/map" then [Effect.navigate "/map", Effect.wait 500] else []
    (navPart ++ [Effect.reportUiEvent],
     if fb = "" then "Opening report interface." else fb)
  else ([], fb)

/-- The `controlApp` branch body of `handleSend`: run the five action
branches in order, threading `feedbackText` (initialized to
`response.text`), and collect their effects. -/
def controlAppCore (responseText : String) (args : FnArgs) (hash : String) :
    List Effect × String :=
  let s1 := navStep responseText args
  let s2 := alertStep s1.2 args
  let s3 := simStep s2.2 args hash
  let s4 := mapStep s3.2 args hash
  let s5 := reportStep s4.2 args hash
  (s1.1 ++ s2.1 ++ s3.1 ++ s4.1 ++ s5.1, s5.2)

/-- The full `controlApp` branch of `handleSend`, including the trailing
`if (!response.text && feedbackText)` synthesized-feedback guard. -/
def controlAppEffects (responseText : String) (args : FnArgs) (hash : String) :
    List Effect :=
  let p := controlAppCore responseText args hash
  if responseText = "" ∧ p.2 ≠ "" then
    p.1 ++ [Effect.addAiMessage p.2, Effect.speakText p.2]
  else p.1

/-- The response-dispatch portion of `handleSend` (after `chatWithAssistant`
returns): show and speak narration when present, then act on the function
call — `controlApp`, `getUserLocation` (which suspends dispatch), or
`reportIncident` (which writes a report via the store and schedules a
navigation to the map after 3000 ms). `hash` is `window.location.hash` and
`userCoords` the resolved user location, if any. -/
def handleResponseEffects (resp : ChatResponse) (hash : String)
    (userCoords : Option Coordinates) : List Effect :=
  let narr : List Effect :=
    if resp.text ≠ "" then
      [Effect.addAiMessage resp.text, Effect.speakText resp.text]
    else []
  match resp.functionCall with
  | none => narr
  | some fc =>
    if fc.name = "controlApp" then
      narr ++ controlAppEffects resp.text fc.args hash
    else if fc.name = "getUserLocation" then
      let requestMsg :=
        if resp.text = "" then
          "I need to access your GPS coordinates to find accurate local information."
        else resp.text
      narr ++ [Effect.addAiMessage requestMsg, Effect.speakText requestMsg,
               Effect.locationRequested]
    else if fc.name = "reportIncident" then
      let feedback :=
        if resp.text = "" then
          "Report filed: " ++ optDisasterStr fc.args.type ++ " - " ++
            optStr fc.args.description ++ ". Broadcasted to local network."
        else resp.text
      narr ++ [Effect.storeCreateReport fc.args.type fc.args.description
                 (userCoords.getD { lat := 34.0522, lng := -118.2437 }),
               Effect.addAiMessage feedback, Effect.speakText feedback,
               Effect.delayedNavigate 3000 "/map"]
    else narr

/-- The texts of the assistant messages in an effect trace (the entries the
user sees appended to the chat). -/
def assistantMessages (es : List Effect) : List String :=
  es.filterMap fun e =>
    match e with
    | Effect.addAiMessage t => some t
    | _ => none

/-- The claim-side rendering of the deduplication: keep exactly the entries
whose index is the earliest index bearing their link, in order. -/
def firstOccurrenceByUrl (items : List NewsItem) : List NewsItem :=
  (items.enum.filter fun p =>
    decide (∀ j (_ : j < items.length), j < p.1 → items[j].url ≠ p.2.url)).map
    Prod.snd

lemma verifyUpd_map_of_not_mem (rid : String) (l : List UserReport)
    (h : rid ∉ l.map UserReport.id) :
    (l.map fun r => if r.id = rid then { r with verified := true } else r) = l := by
  induction l with
  | nil => rfl
  | cons x xs ih =>
    simp only [List.map_cons, List.mem_cons, not_or] at h
    obtain ⟨h1, h2⟩ := h
    simp only [List.map_cons]
    rw [if_neg fun e => h1 e.symm, ih h2]

lemma verifyUpd_map_eq_set (rid : String) :
    ∀ (l : List UserReport) (i : Nat) (hi : i < l.length),
      (l.map UserReport.id).Nodup → (l.get ⟨i, hi⟩).id = rid →
      (l.map fun r => if r.id = rid then { r with verified := true } else r) =
        l.set i { l.get ⟨i, hi⟩ with verified := true }
  | [], i, hi, _, _ => absurd hi (Nat.not_lt_zero i)
  | x :: xs, 0, _, hnd, hid => by
    rw [List.map_cons] at hnd
    obtain ⟨hhead, _⟩ := List.nodup_cons.mp hnd
    simp only [List.get] at hid
    simp only [List.map_cons, List.set_cons_zero, List.get]
    rw [if_pos hid, verifyUpd_map_of_not_mem rid xs (hid ▸ hhead)]
  | x :: xs, i + 1, hi, hnd, hid => by
    rw [List.map_cons] at hnd
    obtain ⟨hhead, htail⟩ := List.nodup_cons.mp hnd
    simp only [List.get] at hid
    have hmem : rid ∈ xs.map UserReport.id :=
      List.mem_map.mpr ⟨xs.get ⟨i, Nat.lt_of_succ_lt_succ hi⟩, List.get_mem _ _ _, hid⟩
    have hx : x.id ≠ rid := fun e => hhead (e ▸ hmem)
    simp only [List.map_cons, List.set_cons_succ, List.get]
    rw [if_neg hx,
      verifyUpd_map_eq_set rid xs i (Nat.lt_of_succ_lt_succ hi) htail hid]

lemma delete_filter_of_not_mem (cid : String) (l : List Contact)
    (h : cid ∉ l.map Contact.id) :
    (l.filter fun c => c.id ≠ cid) = l := by
  induction l with
  | nil => rfl
  | cons x xs ih =>
    simp only [List.map_cons, List.mem_cons, not_or] at h
    obtain ⟨h1, h2⟩ := h
    simp only [List.filter_cons]
    rw [if_pos (by simpa using fun e => h1 e.symm), ih h2]

lemma delete_filter_eq_eraseIdx (cid : String) :
    ∀ (l : List Contact) (i : Nat) (hi : i < l.length),
      (l.map Contact.id).Nodup → (l.get ⟨i, hi⟩).id = cid →
      (l.filter fun c => c.id ≠ cid) = l.eraseIdx i
  | [], i, hi, _, _ => absurd hi (Nat.not_lt_zero i)
  | x :: xs, 0, _, hnd, hid => by
    rw [List.map_cons] at hnd
    obtain ⟨hhead, _⟩ := List.nodup_cons.mp hnd
    simp only [List.get] at hid
    simp only [List.filter_cons, List.eraseIdx_cons_zero]
    rw [if_neg (by simpa using hid), delete_filter_of_not_mem cid xs (hid ▸ hhead)]
  | x :: xs, i + 1, hi, hnd, hid => by
    rw [List.map_cons] at hnd
    obtain ⟨hhead, htail⟩ := List.nodup_cons.mp hnd
    simp only [List.get] at hid
    have hmem : cid ∈ xs.map Contact.id :=
      List.mem_map.mpr ⟨xs.get ⟨i, Nat.lt_of_succ_lt_succ hi⟩, List.get_mem _ _ _, hid⟩
    have hx : x.id ≠ cid := fun e => hhead (e ▸ hmem)
    simp only [List.filter_cons, List.eraseIdx_cons_succ]
    rw [if_pos (by simpa using hx),
      delete_filter_eq_eraseIdx cid xs i (Nat.lt_of_succ_lt_succ hi) htail hid]

/-- C1: `api.createReport` appends exactly one new record to the reports
collection; its identifier is the freshly generated one (distinct from every
existing identifier, given that the generator returned an unused value), its
`verified` field is `false`, its timestamp is the creation-time clock sample
(at or after the call time), and the reports-changed broadcast is dispatched
exactly once. -/
theorem createReport_appends_fresh_unverified (now tNow callTime : Nat)
    (s : Store) (input : ReportInput) (newId : String)
    (hfresh : newId ∉ ((api.getReports now s).2.map UserReport.id))
    (hcall : callTime ≤ tNow) :
    (api.createReport now tNow s input newId).1.reports =
      some ((api.getReports now s).2 ++
        [(api.createReport now tNow s input newId).2.2]) ∧
    (api.createReport now tNow s input newId).2.2.id = newId ∧
    (api.createReport now tNow s input newId).2.2.id ∉
      ((api.getReports now s).2.map UserReport.id) ∧
    (api.createReport now tNow s input newId).2.2.verified = false ∧
    callTime ≤ (api.createReport now tNow s input newId).2.2.timestamp ∧
    (api.createReport now tNow s input newId).2.1 = [StoreEffect.reportsChanged] :=
  ⟨rfl, rfl, hfresh, rfl, hcall, rfl⟩

/-- Concrete instantiation of `createReport_appends_fresh_unverified`. -/
theorem createReport_appends_fresh_unverified_witness :
    ("u1" ∉ ((api.getReports 3600000 emptyStore).2.map UserReport.id)) ∧
    ((4 : Nat) ≤ 5) ∧
    ((api.createReport 3600000 5 emptyStore
        { type := DisasterType.FIRE, description := "w",
          coordinates := { lat := 1, lng := 2 } } "u1").2.2.verified = false ∧
      (api.createReport 3600000 5 emptyStore
        { type := DisasterType.FIRE, description := "w",
          coordinates := { lat := 1, lng := 2 } } "u1").2.1 =
        [StoreEffect.reportsChanged]) :=
  ⟨by decide, by decide,
    ⟨(createReport_appends_fresh_unverified 3600000 5 4 emptyStore
        { type := DisasterType.FIRE, description := "w",
          coordinates := { lat := 1, lng := 2 } } "u1" (by decide)
        (by decide)).2.2.2.1,
      (createReport_appends_fresh_unverified 3600000 5 4 emptyStore
        { type := DisasterType.FIRE, description := "w",
          coordinates := { lat := 1, lng := 2 } } "u1" (by decide)
        (by decide)).2.2.2.2.2⟩⟩

/-- C2: with unique identifiers, `api.verifyReport` on an identifier that
matches the record at position `i` replaces the stored collection by the
same list with only that record's `verified` field set to `true` (every
other record and every other field unchanged); on an identifier matching no
record it stores the collection unchanged. -/
theorem verifyReport_frame (now : Nat) (s : Store) (rid : String)
    (huniq : ((api.getReports now s).2.map UserReport.id).Nodup) :
    (∀ i (hi : i < (api.getReports now s).2.length),
      ((api.getReports now s).2.get ⟨i, hi⟩).id = rid →
      (api.verifyReport now s rid).1.reports =
        some ((api.getReports now s).2.set i
          { (api.getReports now s).2.get ⟨i, hi⟩ with verified := true })) ∧
    (rid ∉ (api.getReports now s).2.map UserReport.id →
      (api.verifyReport now s rid).1.reports = some ((api.getReports now s).2)) := by
  have hdef : (api.verifyReport now s rid).1.reports =
      some ((api.getReports now s).2.map fun r =>
        if r.id = rid then { r with verified := true } else r) := rfl
  constructor
  · intro i hi hid
    rw [hdef, verifyUpd_map_eq_set rid _ i hi huniq hid]
  · intro h
    rw [hdef, verifyUpd_map_of_not_mem rid _ h]

/-- Concrete instantiation of `verifyReport_frame`: verifying `"r2"` on the
freshly seeded collection flips exactly the second record's flag. -/
theorem verifyReport_frame_witness :
    ((api.getReports 3600000 emptyStore).2.map UserReport.id).Nodup ∧
    (api.verifyReport 3600000 emptyStore "r2").1.reports =
      some ((api.getReports 3600000 emptyStore).2.set 1
        { (api.getReports 3600000 emptyStore).2.get ⟨1, by decide⟩ with
            verified := true }) :=
  ⟨by decide,
    (verifyReport_frame 3600000 emptyStore "r2" (by decide)).1 1 (by decide)
      (by decide)⟩

/-- C7: with unique identifiers, `api.deleteContact` on an identifier that
matches the record at position `i` stores exactly the collection with that
one record removed (remaining records in their original order); on an
identifier matching no record it stores the collection unchanged. -/
theorem deleteContact_removes_exactly_one (now : Nat) (s : Store) (cid : String)
    (huniq : ((api.getContacts now s).2.map Contact.id).Nodup) :
    (∀ i (hi : i < (api.getContacts now s).2.length),
      ((api.getContacts now s).2.get ⟨i, hi⟩).id = cid →
      (api.deleteContact now s cid).contacts =
        some ((api.getContacts now s).2.eraseIdx i)) ∧
    (cid ∉ (api.getContacts now s).2.map Contact.id →
      (api.deleteContact now s cid).contacts = some ((api.getContacts now s).2)) := by
  have hdef : (api.deleteContact now s cid).contacts =
      some ((api.getContacts now s).2.filter fun c => c.id ≠ cid) := rfl
  constructor
  · intro i hi hid
    rw [hdef, delete_filter_eq_eraseIdx cid _ i hi huniq hid]
  · intro h
    rw [hdef, delete_filter_of_not_mem cid _ h]

/-- Concrete instantiation of `deleteContact_removes_exactly_one`: deleting
`"c1"` from the freshly seeded contacts removes exactly the first record. -/
theorem deleteContact_removes_exactly_one_witness :
    ((api.getContacts 0 emptyStore).2.map Contact.id).Nodup ∧
    (api.deleteContact 0 emptyStore "c1").contacts =
      some ((api.getContacts 0 emptyStore).2.eraseIdx 0) :=
  ⟨by decide,
    (deleteContact_removes_exactly_one 0 emptyStore "c1" (by decide)).1 0
      (by decide) (by decide)⟩

/-- C10: `api.verifyReport` dispatches the reports-changed broadcast exactly
once on every invocation, for every store and every identifier — in
particular also when the identifier matches no stored record. -/
theorem verifyReport_always_broadcasts_once (now : Nat) (s : Store) (rid : String) :
    (api.verifyReport now s rid).2 = [StoreEffect.reportsChanged] ∧
    ((api.verifyReport now s rid).2.count StoreEffect.reportsChanged) = 1 :=
  ⟨rfl, rfl⟩

/-- C8: seeding is idempotent. Reading any collection on first-ever use
returns exactly its static fixture; running `api.init` a second time (at any
later clock) is the identity; and a second read returns the same state and
the same collection as the first. -/
theorem seeding_idempotent (now now2 : Nat) (s : Store) :
    (api.getReports now emptyStore).2 = MOCK_REPORTS now ∧
    (api.getResources now emptyStore).2 = MOCK_RESOURCES ∧
    (api.getAlerts now emptyStore).2 = MOCK_ALERTS now ∧
    (api.getNews now emptyStore).2 = MOCK_NEWS now ∧
    (api.getContacts now emptyStore).2 = MOCK_CONTACTS ∧
    api.init now2 (api.init now s) = api.init now s ∧
    api.getReports now2 (api.getReports now s).1 = api.getReports now s := by
  have hinit : api.init now2 (api.init now s) = api.init now s := by
    obtain ⟨r, res, al, ne, co⟩ := s
    cases r <;> cases res <;> cases al <;> cases ne <;> cases co <;>
      simp [api.init]
  refine ⟨rfl, rfl, rfl, rfl, rfl, hinit, ?_⟩
  show api.getReports now2 (api.init now s) = _
  unfold api.getReports
  rw [hinit]

/-- C6: with the API credential absent, every gateway capability returns its
fixed fallback value with zero network calls attempted: image analysis
returns `null`, plan generation returns the fixed unavailable string, the
news fetch returns the empty list, and chat returns a response carrying only
the offline message (no function call, no grounding metadata). -/
theorem gateway_offline_fallbacks
    (a1 : Except String (Option PredictionResult))
    (a2 : Except String (Option String))
    (a3 : Except String ChatOutcome)
    (hostname : String → String) (now : Nat)
    (a4 : Except String (Option (List GroundingChunk))) :
    analyzeDisasterImage none a1 = (none, 0) ∧
    generateEmergencyPlanText none a2 = ("AI Service Unavailable", 0) ∧
    fetchRealTimeNews none hostname now a4 = ([], 0) ∧
    chatWithAssistant none a3 =
      ({ text := "System offline.", functionCall := none,
         groundingMetadata := none }, 0) :=
  ⟨rfl, rfl, rfl, rfl⟩

/-- C5: the deduplication step of `fetchRealTimeNews` keeps, for each link
value, exactly the item at the earliest index bearing that link, preserving
first occurrences in order; and the list the fetch returns never exceeds ten
items. -/
theorem news_dedup_keeps_first_occurrences (items : List NewsItem) :
    dedupByUrl items = firstOccurrenceByUrl items ∧
    ((dedupByUrl items).take 10).length ≤ 10 ∧
    (∀ (apiKey : Option String) (hostname : String → String) (now : Nat)
      (attempt : Except String (Option (List GroundingChunk))),
      (fetchRealTimeNews apiKey hostname now attempt).1.length ≤ 10) := by
  refine ⟨?_, List.length_take_le 10 _, ?_⟩
  · unfold dedupByUrl firstOccurrenceByUrl
    congr 1
    apply List.filter_congr
    intro p hp
    have hget : items[p.1]? = some p.2 := List.mem_enum_iff_getElem?.mp hp
    obtain ⟨hlt, hElem⟩ := List.getElem?_eq_some_iff.mp hget
    rw [Bool.beq_eq_decide_eq, decide_eq_decide, List.findIdx_eq hlt]
    constructor
    · rintro ⟨-, hall⟩ j hj hjp
      simpa using hall j hjp
    · intro hall
      refine ⟨by simp [hElem], fun j hjp => by simpa using hall j (Nat.lt_trans hjp hlt) hjp⟩
  · intro apiKey hostname now attempt
    match apiKey with
    | none => simp [fetchRealTimeNews]
    | some k =>
      match attempt with
      | .error e => simp [fetchRealTimeNews]
      | .ok none => simp [fetchRealTimeNews]
      | .ok (some chunks) =>
        simp only [fetchRealTimeNews]
        exact List.length_take_le 10 _

lemma assistantMessages_append (a b : List Effect) :
    assistantMessages (a ++ b) = assistantMessages a ++ assistantMessages b :=
  List.filterMap_append a b _

lemma navStep_no_messages (fb : String) (args : FnArgs) :
    assistantMessages (navStep fb args).1 = [] := by
  unfold navStep
  split
  · cases h : args.route with
    | none => simp [assistantMessages]
    | some r =>
      dsimp only
      split
      · simp [assistantMessages]
      · split <;> simp [assistantMessages]
  · simp [assistantMessages]

lemma alertStep_no_messages (fb : String) (args : FnArgs) :
    assistantMessages (alertStep fb args).1 = [] := by
  unfold alertStep
  split <;> simp [assistantMessages]

lemma simStep_no_messages (fb : String) (args : FnArgs) (hash : String) :
    assistantMessages (simStep fb args hash).1 = [] := by
  unfold simStep
  split
  · split <;> simp [assistantMessages]
  · simp [assistantMessages]

lemma mapStep_no_messages (fb : String) (args : FnArgs) (hash : String) :
    assistantMessages (mapStep fb args hash).1 = [] := by
  unfold mapStep
  split
  · split <;> simp [assistantMessages]
  · simp [assistantMessages]

lemma reportStep_no_messages (fb : String) (args : FnArgs) (hash : String) :
    assistantMessages (reportStep fb args hash).1 = [] := by
  unfold reportStep
  split
  · split <;> simp [assistantMessages]
  · simp [assistantMessages]

lemma controlAppCore_no_messages (t : String) (args : FnArgs) (hash : String) :
    assistantMessages (controlAppCore t args hash).1 = [] := by
  unfold controlAppCore
  dsimp only
  rw [assistantMessages_append, assistantMessages_append, assistantMessages_append,
    assistantMessages_append, navStep_no_messages, alertStep_no_messages,
    simStep_no_messages, mapStep_no_messages, reportStep_no_messages]
  rfl

lemma assistantMessages_controlApp (t : String) (args : FnArgs) (hash : String) :
    assistantMessages (controlAppEffects t args hash) =
      (if t = "" ∧ (controlAppCore t args hash).2 ≠ "" then
        [(controlAppCore t args hash).2]
      else []) := by
  unfold controlAppEffects
  dsimp only
  split
  · rw [assistantMessages_append, controlAppCore_no_messages]
    simp [assistantMessages]
  · rw [controlAppCore_no_messages]

lemma simulation_start_core (narration hash : String) (args : FnArgs)
    (hact : args.action = some "SIMULATION_CONTROL")
    (hcmd : args.simulationCommand = some "START")
    (hview : hash ≠ "#/simulation") :
    controlAppCore narration args hash =
      ([Effect.navigate "/simulation", Effect.wait 500,
        Effect.simCommandEvent (some "START") args.intensityValue],
       if narration = "" then "Simulation protocol START executed."
       else narration) := by
  unfold controlAppCore navStep alertStep simStep mapStep reportStep
  rw [hact, hcmd]
  simp [hview, optStr]

/-- C3: a `SIMULATION_CONTROL` tool call with sub-command `START` issued
while the current view is not the simulation view produces the navigation to
`/simulation` strictly before the simulation command broadcast, with the
500 ms settle delay between them, and no other navigation or simulation
broadcast occurs in the rest of the trace. -/
theorem simulation_start_navigates_before_broadcast
    (narration hash : String) (args : FnArgs)
    (hact : args.action = some "SIMULATION_CONTROL")
    (hcmd : args.simulationCommand = some "START")
    (hview : hash ≠ "#/simulation") :
    ∃ rest, controlAppEffects narration args hash =
        Effect.navigate "/simulation" :: Effect.wait 500 ::
          Effect.simCommandEvent (some "START") args.intensityValue :: rest ∧
      ∀ e ∈ rest, (∀ r, e ≠ Effect.navigate r) ∧
        ∀ c i, e ≠ Effect.simCommandEvent c i := by
  have hcore := simulation_start_core narration hash args hact hcmd hview
  by_cases hn : narration = ""
  · refine ⟨[Effect.addAiMessage "Simulation protocol START executed.",
      Effect.speakText "Simulation protocol START executed."], ?_, ?_⟩
    · unfold controlAppEffects
      rw [hcore]
      simp [hn]
    · intro e he
      simp only [List.mem_cons, List.not_mem_nil, or_false] at he
      rcases he with rfl | rfl <;> exact ⟨by simp, by simp⟩
  · refine ⟨[], ?_, by simp⟩
    unfold controlAppEffects
    rw [hcore]
    simp [hn]

/-- Concrete instantiation of `simulation_start_navigates_before_broadcast`
from the dashboard view. -/
theorem simulation_start_navigates_before_broadcast_witness :
    ∃ rest, controlAppEffects ""
        { action := some "SIMULATION_CONTROL", route := none,
          alertActive := none, simulationCommand := some "START",
          intensityValue := none, mapCommand := none, type := none,
          description := none } "#/" =
        Effect.navigate "/simulation" :: Effect.wait 500 ::
          Effect.simCommandEvent (some "START") none :: rest ∧
      ∀ e ∈ rest, (∀ r, e ≠ Effect.navigate r) ∧
        ∀ c i, e ≠ Effect.simCommandEvent c i :=
  simulation_start_navigates_before_broadcast "" "#/"
    { action := some "SIMULATION_CONTROL", route := none, alertActive := none,
      simulationCommand := some "START", intensityValue := none,
      mapCommand := none, type := none, description := none }
    rfl rfl (by decide)

lemma navigateAckMessage_ne_empty (t : String) : navigateAckMessage t ≠ "" := by
  unfold navigateAckMessage
  intro h
  have hl := congrArg String.length h
  rw [String.length_append, String.length_append] at hl
  have h1 : ("Routing to " : String).length = 11 := rfl
  have h2 : ("." : String).length = 1 := rfl
  have h3 : ("" : String).length = 0 := rfl
  rw [h1, h2, h3] at hl
  omega

/-- C4 (amended): for a `NAVIGATE` tool call with no narration, if the
supplied route trims (surrounding whitespace removed) to one of the eight
allow-listed routes, the dispatcher navigates to the trimmed route and shows
and speaks exactly the synthesized acknowledgement naming that route's view;
if the trimmed route is not in the allow-list, no effect at all is produced
— no navigation and no acknowledgement. -/
theorem navigate_route_dispatch (r hash : String) (args : FnArgs)
    (hact : args.action = some "NAVIGATE") (hroute : args.route = some r) :
    (jsTrim r ∈ validRoutes →
      controlAppEffects "" args hash =
        [Effect.triggerGuiding, Effect.navigate (jsTrim r),
         Effect.addAiMessage (navigateAckMessage (jsTrim r)),
         Effect.speakText (navigateAckMessage (jsTrim r))]) ∧
    (jsTrim r ∉ validRoutes → controlAppEffects "" args hash = []) := by
  constructor
  · intro hmem
    have hne : r ≠ "" := by
      intro h
      rw [h] at hmem
      exact absurd hmem (by decide)
    unfold controlAppEffects controlAppCore navStep alertStep simStep mapStep reportStep
    rw [hact, hroute]
    simp [hne, hmem, navigateAckMessage_ne_empty (jsTrim r)]
  · intro hmem
    unfold controlAppEffects controlAppCore navStep alertStep simStep mapStep reportStep
    rw [hact, hroute]
    by_cases hne : r = ""
    · simp [hne]
    · simp [hne, hmem]

/-- Counterexample to C4 as stated: the supplied route `" /map"` is not in
the allow-list, yet (because the dispatcher trims before the allow-list
check) navigation to `/map` occurs and a synthesized acknowledgement is
produced. -/
theorem navigate_untrimmed_route_counterexample :
    (" /map" ∉ validRoutes) ∧
    controlAppEffects ""
      { action := some "NAVIGATE", route := some " /map", alertActive := none,
        simulationCommand := none, intensityValue := none, mapCommand := none,
        type := none, description := none } "#/" =
      [Effect.triggerGuiding, Effect.navigate "/map",
       Effect.addAiMessage "Routing to map.",
       Effect.speakText "Routing to map."] := by
  constructor
  · decide
  · decide

/-- Concrete instantiation of `navigate_route_dispatch` on route `"/map"`. -/
theorem navigate_route_dispatch_witness :
    (jsTrim "/map" ∈ validRoutes) ∧
    controlAppEffects ""
      { action := some "NAVIGATE", route := some "/map", alertActive := none,
        simulationCommand := none, intensityValue := none, mapCommand := none,
        type := none, description := none } "#/" =
      [Effect.triggerGuiding, Effect.navigate (jsTrim "/map"),
       Effect.addAiMessage (navigateAckMessage (jsTrim "/map")),
       Effect.speakText (navigateAckMessage (jsTrim "/map"))] :=
  ⟨by decide,
    (navigate_route_dispatch "/map" "#/"
      { action := some "NAVIGATE", route := some "/map", alertActive := none,
        simulationCommand := none, intensityValue := none, mapCommand := none,
        type := none, description := none } rfl rfl).1 (by decide)⟩

/-- A `controlApp` response with no narration and an unrecognized route. -/
def ignoredRouteResponse : ChatResponse :=
  { text := "",
    functionCall := some
      { name := "controlApp",
        args :=
          { action := some "NAVIGATE", route := some "/nonexistent",
            alertActive := none, simulationCommand := none,
            intensityValue := none, mapCommand := none, type := none,
            description := none } },
    groundingMetadata := none }

/-- A `controlApp` alert-mode call accompanied by narration text. -/
def narratedAlertCall : FnCall :=
  { name := "controlApp",
    args :=
      { action := some "SET_ALERT_MODE", route := none,
        alertActive := some true, simulationCommand := none,
        intensityValue := none, mapCommand := none, type := none,
        description := none } }

/-- The response carrying `narratedAlertCall` together with narration. -/
def narratedAlertResponse : ChatResponse :=
  { text := "Acknowledged.", functionCall := some narratedAlertCall,
    groundingMetadata := none }

/-- C9 (amended): a gateway response handled by the `controlApp` dispatcher
shows the user at most one assistant message: when narration text is
present it is shown and spoken and no synthesized feedback is added; only
when narration is absent may a single synthesized feedback message appear;
never both for the same response (and, for a silently ignored call with no
narration, possibly neither). -/
theorem controlApp_turn_at_most_one_message (resp : ChatResponse)
    (hash : String) (uc : Option Coordinates) (fc : FnCall)
    (hfc : resp.functionCall = some fc) (hname : fc.name = "controlApp") :
    (assistantMessages (handleResponseEffects resp hash uc)).length ≤ 1 ∧
    (resp.text ≠ "" →
      assistantMessages (handleResponseEffects resp hash uc) = [resp.text] ∧
      Effect.speakText resp.text ∈ handleResponseEffects resp hash uc) := by
  have hdef : handleResponseEffects resp hash uc =
      (if resp.text ≠ "" then
        [Effect.addAiMessage resp.text, Effect.speakText resp.text]
      else []) ++ controlAppEffects resp.text fc.args hash := by
    unfold handleResponseEffects
    rw [hfc]
    simp [hname]
  by_cases ht : resp.text = ""
  · refine ⟨?_, fun h => absurd ht h⟩
    rw [hdef, assistantMessages_append, assistantMessages_controlApp]
    simp only [ht, ne_eq, not_true_eq_false, if_false, List.nil_append]
    split <;> simp [assistantMessages]
  · refine ⟨?_, fun _ => ⟨?_, ?_⟩⟩
    · rw [hdef, assistantMessages_append, assistantMessages_controlApp]
      simp [ht, assistantMessages]
    · rw [hdef, assistantMessages_append, assistantMessages_controlApp]
      simp [ht, assistantMessages]
    · rw [hdef]
      simp [ht]

/-- Counterexample to C9 as stated: a `controlApp` response with no
narration and an unrecognized route is dispatched with zero assistant
messages shown for the turn, not exactly one. -/
theorem controlApp_turn_zero_messages_counterexample :
    assistantMessages (handleResponseEffects ignoredRouteResponse "#/" none) = [] := by
  decide

/-- Concrete instantiation of `controlApp_turn_at_most_one_message` with
narration present alongside a tool call. -/
theorem controlApp_turn_at_most_one_message_witness :
    (assistantMessages
      (handleResponseEffects narratedAlertResponse "#/" none)).length ≤ 1 ∧
    (assistantMessages (handleResponseEffects narratedAlertResponse "#/" none) =
        ["Acknowledged."] ∧
      Effect.speakText "Acknowledged." ∈
        handleResponseEffects narratedAlertResponse "#/" none) :=
  have h := controlApp_turn_at_most_one_message narratedAlertResponse "#/" none
    narratedAlertCall rfl rfl
  ⟨h.1, h.2 (by decide)⟩
